import Mathlib

/-!
Verification development for the mmap market-data log readers of the
`screwdriver` repository.  The Python sources under `src/script/` are shallowly
embedded: a memory-mapped file (or any byte buffer) is a `List Nat` of byte
values, `mm.read` / slicing becomes `drop`/`take`, `struct.unpack` of
little-endian integers becomes explicit base-256 arithmetic, and the imperative
scan loops become folds over `List.range`.
-/

set_option maxHeartbeats 1000000
set_option maxRecDepth 10000

/-! ## Byte-buffer primitives -/

/-- `sliceBytes data off len` models Python `data[off : off+len]` (and
`mm.seek(off); mm.read(len)`): it returns fewer bytes when the buffer is
exhausted. -/
def sliceBytes (data : List Nat) (off len : Nat) : List Nat :=
  (data.drop off).take len

/-- Little-endian value of a byte list (least significant byte first),
as produced by `struct.unpack('<...')`. -/
def leBytesToNat : List Nat → Nat
  | [] => 0
  | b :: rest => b + 256 * leBytesToNat rest

/-- Unsigned little-endian field of `len` bytes at offset `off`. -/
def leU (data : List Nat) (off len : Nat) : Nat :=
  leBytesToNat (sliceBytes data off len)

/-- Signed (two's-complement) little-endian field of `len` bytes at `off`,
as decoded by `struct.unpack` format characters `i` / `q`. -/
def leI (data : List Nat) (off len : Nat) : Int :=
  let u := leU data off len
  if u < 2 ^ (8 * len - 1) then (u : Int) else (u : Int) - 2 ^ (8 * len)

/-- Little-endian encoding of `v` into `w` bytes (used to build concrete
test files). -/
def leBytes : Nat → Nat → List Nat
  | 0, _ => []
  | w + 1, v => v % 256 :: leBytes w (v / 256)

/-- Python `bytes.rstrip(b'\x00')`: drop trailing NUL bytes. -/
def rstripZeros (bs : List Nat) : List Nat :=
  (bs.reverse.dropWhile (fun b => b == 0)).reverse

/-- C-string truncation: the bytes before the first NUL.  This models both
`decode_string` (`find(b'\x00')` then slice) and `get_symbol_from_record`
(same `find`, falling back to `rstrip` only when no NUL exists, in which case
`rstrip` is the identity); both branches equal `takeWhile (· ≠ 0)`. -/
def cstrTrunc (bs : List Nat) : List Nat :=
  bs.takeWhile (fun b => b != 0)

/-! ## Header codec and magic table -/

/-- The 64-byte file header: `struct.unpack('<IHHQQ', data[:24])`. -/
structure Header where
  magic : Nat
  version : Nat
  struct_size : Nat
  record_count : Nat
  write_offset : Nat
deriving Repr, DecidableEq

def HEADER_SIZE : Nat := 64

def MAGIC_ORDER : Nat := 0x4D444F52
def MAGIC_TRANSACTION : Nat := 0x4D445458
def MAGIC_TICK : Nat := 0x4D44544B
def MAGIC_SNAPSHOT : Nat := 0x4D444F42

def MAGIC_ORDER_V2 : Nat := 0x4F524432
def MAGIC_TRANSACTION_V2 : Nat := 0x54584E32
def MAGIC_TICK_V2 : Nat := 0x54494B32
def MAGIC_ORDERBOOK_V2 : Nat := 0x4F424B32

def SIZE_ORDER : Nat := 144
def SIZE_TRANSACTION : Nat := 128
def SIZE_TICK : Nat := 2216
def SIZE_SNAPSHOT : Nat := 728

def SIZE_ORDER_V2 : Nat := 144
def SIZE_TRANSACTION_V2 : Nat := 136
def SIZE_TICK_V2 : Nat := 2216
def SIZE_SNAPSHOT_V2 : Nat := 736

/-- The 8-entry magic table (4 record kinds × 2 generations) with the record
size mandated for each magic. -/
def magicSizeTable : List (Nat × Nat) :=
  [(MAGIC_ORDER, SIZE_ORDER), (MAGIC_TRANSACTION, SIZE_TRANSACTION),
   (MAGIC_TICK, SIZE_TICK), (MAGIC_SNAPSHOT, SIZE_SNAPSHOT),
   (MAGIC_ORDER_V2, SIZE_ORDER_V2), (MAGIC_TRANSACTION_V2, SIZE_TRANSACTION_V2),
   (MAGIC_TICK_V2, SIZE_TICK_V2), (MAGIC_ORDERBOOK_V2, SIZE_SNAPSHOT_V2)]

/-- Parse the five header fields out of a (≥24-byte) buffer, per
`struct.unpack('<IHHQQ', data[:24])`. -/
def parseHeader24 (data : List Nat) : Header :=
  { magic := leU data 0 4
    version := leU data 4 2
    struct_size := leU data 6 2
    record_count := leU data 8 8
    write_offset := leU data 16 8 }

namespace ImportCH
/- Embedding of `script/import_to_clickhouse.py`. -/

/-- `read_header(f)`: reads 64 bytes and raises `ValueError` (`none`) when
fewer than `HEADER_SIZE` bytes are available. -/
def read_header (f : List Nat) : Option Header :=
  let header_data := sliceBytes f 0 HEADER_SIZE
  if header_data.length < HEADER_SIZE then none
  else some (parseHeader24 header_data)

end ImportCH

/-- The error taxonomy of the spec's `FormatError` (the Python code raises
`ValueError` with corresponding messages). -/
inductive FormatError where
  | truncated
  | unknownMagic (magic : Nat)
  | sizeMismatch (got expected : Nat)
deriving Repr, DecidableEq

namespace ImportCH

/-- One decoded V1 order record, per `ORDER_FORMAT = '<40s i i i i q i xxxx q q
i i q q q i 16s xxxx'` and `ORDER_FIELDS` (byte offsets 0, 40, 44, 48, 52, 56,
64, 72, 80, 88, 92, 96, 104, 112, 120, 124). -/
structure OrderRec where
  htscsecurityid : List Nat
  mddate : Int
  mdtime : Int
  securityidsource : Int
  securitytype : Int
  orderindex : Int
  ordertype : Int
  orderprice : Int
  orderqty : Int
  orderbsflag : Int
  channelno : Int
  orderno : Int
  tradedqty : Int
  applseqnum : Int
  datamultiplepowerof10 : Int
  securitystatus : List Nat
deriving Repr, DecidableEq

/-- Decode one 144-byte order record; string fields go through
`decode_string` (NUL truncation, modeled by `cstrTrunc`). -/
def decodeOrder (data : List Nat) : OrderRec :=
  { htscsecurityid := cstrTrunc (sliceBytes data 0 40)
    mddate := leI data 40 4
    mdtime := leI data 44 4
    securityidsource := leI data 48 4
    securitytype := leI data 52 4
    orderindex := leI data 56 8
    ordertype := leI data 64 4
    orderprice := leI data 72 8
    orderqty := leI data 80 8
    orderbsflag := leI data 88 4
    channelno := leI data 92 4
    orderno := leI data 96 8
    tradedqty := leI data 104 8
    applseqnum := leI data 112 8
    datamultiplepowerof10 := leI data 120 4
    securitystatus := cstrTrunc (sliceBytes data 124 16) }

/-- The record loop of `read_orders`: sequential `f.read(ORDER_SIZE)` calls,
stopping early (`break`) when fewer than `ORDER_SIZE` bytes come back.  `i` is
the index of the next record, the first argument the remaining iteration
count. -/
def readOrdersLoop (f : List Nat) : Nat → Nat → List OrderRec
  | 0, _ => []
  | n + 1, i =>
    let data := sliceBytes f (HEADER_SIZE + i * SIZE_ORDER) SIZE_ORDER
    if data.length < SIZE_ORDER then []
    else decodeOrder data :: readOrdersLoop f n (i + 1)

/-- `read_orders(filepath)`: header validation (magic, then struct size)
before any record is decoded. -/
def read_orders (f : List Nat) : Except FormatError (List OrderRec) :=
  match read_header f with
  | none => .error .truncated
  | some h =>
    if h.magic ≠ MAGIC_ORDER then .error (.unknownMagic h.magic)
    else if h.struct_size ≠ SIZE_ORDER then .error (.sizeMismatch h.struct_size SIZE_ORDER)
    else .ok (readOrdersLoop f h.record_count 0)

end ImportCH

namespace ReadMmap
/- Embedding of `script/read_mmap.py`. -/

/-- `read_header(mm)`: reads up to 64 bytes and unpacks `data[:24]`.  The only
failure mode is `struct.error` when fewer than 24 bytes are available; no
magic or struct-size validation is performed. -/
def read_header (mm : List Nat) : Option Header :=
  let data := sliceBytes mm 0 HEADER_SIZE
  if data.length < 24 then none
  else some (parseHeader24 data)

/-- `get_symbol_from_record(mm, offset)`: the first 40 bytes of the record,
truncated at the first NUL. -/
def get_symbol_from_record (mm : List Nat) (offset : Nat) : List Nat :=
  let symbol_bytes := sliceBytes mm (HEADER_SIZE + offset) 40
  cstrTrunc symbol_bytes

/-- `read_order_record(mm, offset)` result fields. -/
structure ROrder where
  symbol : List Nat
  date : Int
  time : Int
  orderindex : Int
  ordertype : Int
  orderprice : Int
  orderqty : Int
  orderbsflag : Int
deriving Repr, DecidableEq

/-- `read_order_record(mm, offset)`. -/
def read_order_record (mm : List Nat) (offset : Nat) : ROrder :=
  let data := sliceBytes mm (HEADER_SIZE + offset) SIZE_ORDER
  { symbol := rstripZeros (sliceBytes data 0 40)
    date := leI data 40 4
    time := leI data 44 4
    orderindex := leI data 56 8
    ordertype := leI data 64 4
    orderprice := leI data 72 8
    orderqty := leI data 80 8
    orderbsflag := leI data 88 4 }

/-- Loop state of `search_symbol`: the page of collected records, the running
total of matches (`found`), and the number of matches skipped so far. -/
structure SearchState (α : Type) where
  results : List (Nat × α)
  found : Nat
  skipped : Nat
deriving Repr

/-- One iteration of the `search_symbol` scan at record index `i`. -/
def searchStep {α : Type} (mm : List Nat) (target_symbol : List Nat)
    (record_size : Nat) (read_func : List Nat → Nat → α)
    (skip_count page_size : Nat) (st : SearchState α) (i : Nat) :
    SearchState α :=
  let offset := i * record_size
  let symbol := get_symbol_from_record mm offset
  if List.IsInfix target_symbol symbol then
    if st.skipped < skip_count then
      { st with found := st.found + 1, skipped := st.skipped + 1 }
    else if st.results.length < page_size then
      { st with results := st.results ++ [(i, read_func mm offset)],
                found := st.found + 1 }
    else { st with found := st.found + 1 }
  else st

/-- `search_symbol(filepath, target_symbol, record_size, read_func, page,
page_size)`: full scan of `[0, record_count)` with pagination; returns the
page of `(index, record)` pairs plus the total match count.  `none` models the
`struct.error` crash on a header shorter than 24 bytes. -/
def search_symbol {α : Type} (mm : List Nat) (target_symbol : List Nat)
    (record_size : Nat) (read_func : List Nat → Nat → α)
    (page page_size : Nat) : Option (List (Nat × α) × Nat) :=
  match read_header mm with
  | none => none
  | some header =>
    if header.record_count = 0 then some ([], 0)
    else
      let skip_count := (page - 1) * page_size
      let fin := (List.range header.record_count).foldl
        (searchStep mm target_symbol record_size read_func skip_count page_size)
        ⟨[], 0, 0⟩
      some (fin.results, fin.found)

/-- `read_tail_records(filepath, record_size, read_func, count)`: the loop
`for i in range(start_idx, record_count)` appending `(record, _idx)` pairs. -/
def read_tail_records {α : Type} (mm : List Nat) (record_size : Nat)
    (read_func : List Nat → Nat → α) (count : Nat) :
    Option (List (Nat × α)) :=
  match read_header mm with
  | none => none
  | some header =>
    if header.record_count = 0 then some []
    else
      let start_idx := max 0 (header.record_count - count)
      some ((List.range' start_idx (header.record_count - start_idx)).foldl
        (fun acc i => acc ++ [(i, read_func mm (i * record_size))]) [])

/-- Byte-read trace entry: `(start offset, length)` of one `mm.read`. -/
abbrev ReadSpan := Nat × Nat

/-- `search_symbol` instrumented with the trace of record-area byte reads it
performs: `get_symbol_from_record` reads 40 bytes at the record start on every
iteration, and `read_func` reads `record_size` bytes at the record start when
the match is placed on the requested page.  Branch structure mirrors
`searchStep`. -/
def searchStepReads (mm : List Nat) (target_symbol : List Nat)
    (record_size skip_count page_size : Nat)
    (st : SearchState Unit × List ReadSpan) (i : Nat) :
    SearchState Unit × List ReadSpan :=
  let offset := i * record_size
  let reads := st.2 ++ [(HEADER_SIZE + offset, 40)]
  let symbol := get_symbol_from_record mm offset
  let s := st.1
  if List.IsInfix target_symbol symbol then
    if s.skipped < skip_count then
      ({ s with found := s.found + 1, skipped := s.skipped + 1 }, reads)
    else if s.results.length < page_size then
      ({ s with results := s.results ++ [(i, ())], found := s.found + 1 },
       reads ++ [(HEADER_SIZE + offset, record_size)])
    else ({ s with found := s.found + 1 }, reads)
  else (s, reads)

/-- The record-area byte reads performed by one `search_symbol` call. -/
def search_symbol_reads (mm : List Nat) (target_symbol : List Nat)
    (record_size page page_size : Nat) : List ReadSpan :=
  match read_header mm with
  | none => []
  | some header =>
    if header.record_count = 0 then []
    else
      let skip_count := (page - 1) * page_size
      ((List.range header.record_count).foldl
        (searchStepReads mm target_symbol record_size skip_count page_size)
        (⟨[], 0, 0⟩, [])).2

/-- The record-area byte reads performed by one `read_tail_records` call:
one `read_func` read per index of `range(start_idx, record_count)`. -/
def read_tail_reads (mm : List Nat) (record_size count : Nat) :
    List ReadSpan :=
  match read_header mm with
  | none => []
  | some header =>
    if header.record_count = 0 then []
    else
      let start_idx := max 0 (header.record_count - count)
      (List.range' start_idx (header.record_count - start_idx)).map
        (fun i => (HEADER_SIZE + i * record_size, record_size))

end ReadMmap

namespace ReadMmapV2
/- Embedding of `script/read_mmap_v2.py`. -/

/-- `detect_version(magic)`: 1 for V1 magics, 2 for V2 magics, 0 otherwise. -/
def detect_version (magic : Nat) : Nat :=
  if magic = MAGIC_ORDER ∨ magic = MAGIC_TRANSACTION ∨
     magic = MAGIC_TICK ∨ magic = MAGIC_SNAPSHOT then 1
  else if magic = MAGIC_ORDER_V2 ∨ magic = MAGIC_TRANSACTION_V2 ∨
          magic = MAGIC_TICK_V2 ∨ magic = MAGIC_ORDERBOOK_V2 then 2
  else 0

/-- `read_header(mm)`: same 24-byte unpack as the V1 reader, plus the
computed `format_version` field. -/
def read_header (mm : List Nat) : Option (Header × Nat) :=
  let data := sliceBytes mm 0 HEADER_SIZE
  if data.length < 24 then none
  else
    let h := parseHeader24 data
    some (h, detect_version h.magic)

end ReadMmapV2

/-! ## Concrete test buffers -/

/-- Assemble a 64-byte header. -/
def mkHeader (magic version struct_size record_count write_offset : Nat) :
    List Nat :=
  leBytes 4 magic ++ leBytes 2 version ++ leBytes 2 struct_size ++
  leBytes 8 record_count ++ leBytes 8 write_offset ++ List.replicate 40 0

/-- Pad a symbol to the 40-byte `htscsecurityid` field. -/
def padSym (sym : List Nat) : List Nat :=
  sym ++ List.replicate (40 - sym.length) 0

/-- Assemble one 144-byte V1 order record with the given symbol, `mdtime`
(offset 44), `channelno` (offset 92) and `applseqnum` (offset 112); all other
fields zero. -/
def mkOrderRecV1 (sym : List Nat) (mdtime channelno applseqnum : Nat) :
    List Nat :=
  padSym sym ++ leBytes 4 0 ++ leBytes 4 mdtime ++ List.replicate 44 0 ++
  leBytes 4 channelno ++ List.replicate 16 0 ++ leBytes 8 applseqnum ++
  List.replicate 24 0

/-- ASCII bytes of `"600000"`. -/
def sym600000 : List Nat := [0x36, 0x30, 0x30, 0x30, 0x30, 0x30]

/-- A 24-byte header fragment with an unknown magic `0x31313131`. -/
def B24 : List Nat :=
  leBytes 4 0x31313131 ++ leBytes 2 1 ++ leBytes 2 144 ++ leBytes 8 3 ++
  leBytes 8 0

/-- A full 64-byte header with the same unknown magic. -/
def B64 : List Nat := B24 ++ List.replicate 40 0

/-- An orders file whose header declares `struct_size = 100`, contradicting
the 144 bytes mandated by its `MDOR` magic, followed by one well-formed
144-byte record for symbol `600000`. -/
def Fbad : List Nat :=
  mkHeader MAGIC_ORDER 1 100 1 0 ++ mkOrderRecV1 sym600000 93000050 1 5

/-! ## C3: header rejection behaviour -/

/-- **C3 counterexample.**  The claim says `read_header` rejects every buffer
shorter than 64 bytes and every 64-byte header with a magic outside the
8-entry table.  `read_mmap.py`'s `read_header` does neither: on the 24-byte
buffer `B24` (shorter than 64) it returns a parsed header, and on the 64-byte
buffer `B64` whose magic `0x31313131` is not in the table it also returns a
parsed header. -/
theorem C3_counterexample :
    B24.length < 64 ∧
    ReadMmap.read_header B24 = some ⟨0x31313131, 1, 144, 3, 0⟩ ∧
    B64.length = 64 ∧
    ReadMmap.read_header B64 = some ⟨0x31313131, 1, 144, 3, 0⟩ ∧
    (0x31313131 : Nat) ∉ magicSizeTable.map Prod.fst := by
  decide

/-- **C3 (amended).**  The importer's `read_header` rejects buffers shorter
than 64 bytes; the mmap readers' `read_header` rejects only buffers shorter
than 24 bytes and otherwise returns the parsed header without validating the
magic; an unknown magic (outside the 8-entry table) is instead rejected
downstream: `detect_version` returns 0 exactly for magics outside the table
(its callers abort on 0), and the importer's `read_orders` errors on any
non-`MDOR` magic. -/
theorem C3_header_rejection :
    (∀ f : List Nat, f.length < 64 → ImportCH.read_header f = none) ∧
    (∀ mm : List Nat, mm.length < 24 → ReadMmap.read_header mm = none) ∧
    (∀ mm : List Nat, 24 ≤ mm.length → (ReadMmap.read_header mm).isSome) ∧
    (∀ m : Nat, ReadMmapV2.detect_version m = 0 ↔
      m ∉ magicSizeTable.map Prod.fst) ∧
    (∀ f h, ImportCH.read_header f = some h → h.magic ≠ MAGIC_ORDER →
      ImportCH.read_orders f = .error (.unknownMagic h.magic)) := by
  refine ⟨?_, ?_, ?_, ?_, ?_⟩
  · intro f hf
    simp only [ImportCH.read_header, HEADER_SIZE, sliceBytes, List.drop_zero,
      List.length_take]
    rw [if_pos (by omega)]
  · intro mm hmm
    simp only [ReadMmap.read_header, HEADER_SIZE, sliceBytes, List.drop_zero,
      List.length_take]
    rw [if_pos (by omega)]
  · intro mm hmm
    simp only [ReadMmap.read_header, HEADER_SIZE, sliceBytes, List.drop_zero,
      List.length_take]
    rw [if_neg (by omega)]
    rfl
  · intro m
    unfold ReadMmapV2.detect_version
    have hmap : magicSizeTable.map Prod.fst =
        [MAGIC_ORDER, MAGIC_TRANSACTION, MAGIC_TICK, MAGIC_SNAPSHOT,
         MAGIC_ORDER_V2, MAGIC_TRANSACTION_V2, MAGIC_TICK_V2,
         MAGIC_ORDERBOOK_V2] := by rfl
    rw [hmap]
    simp only [List.mem_cons, List.not_mem_nil, or_false]
    split_ifs with h1 h2
    · constructor
      · intro h; exact h.elim
      · intro hn; exact absurd (by tauto) hn
    · constructor
      · intro h; exact h.elim
      · intro hn; exact absurd (by tauto) hn
    · constructor
      · intro _; tauto
      · intro _; rfl
  · intro f h hh hm
    simp [ImportCH.read_orders, hh, hm]

/-- **C3 witness**: the amended theorem applied at concrete buffers. -/
theorem C3_header_rejection_witness :
    ImportCH.read_header B24 = none ∧
    ReadMmap.read_header (List.replicate 10 0) = none ∧
    (ReadMmap.read_header B24).isSome ∧
    (ReadMmapV2.detect_version 0x31313131 = 0 ↔
      (0x31313131 : Nat) ∉ magicSizeTable.map Prod.fst) ∧
    ImportCH.read_orders B64 = .error (.unknownMagic 0x31313131) :=
  ⟨C3_header_rejection.1 B24 (by decide),
   C3_header_rejection.2.1 (List.replicate 10 0) (by decide),
   C3_header_rejection.2.2.1 B24 (by decide),
   C3_header_rejection.2.2.2.1 0x31313131,
   C3_header_rejection.2.2.2.2 B64 ⟨0x31313131, 1, 144, 3, 0⟩ (by decide)
     (by decide)⟩

/-! ## C1: struct-size validation on the read paths -/

/-- **C1 counterexample.**  The claim says every read path fails with a
size-mismatch error before decoding any record when the header's
`struct_size` differs from the size mandated by its magic.  `Fbad` declares
`struct_size = 100` under the `MDOR` magic (mandating 144), yet
`read_mmap.py`'s `search_symbol` silently scans it with the caller-supplied
record size, decodes its record and reports one match — no failure occurs. -/
theorem C1_counterexample :
    (ReadMmap.read_header Fbad).map Header.struct_size = some 100 ∧
    magicSizeTable.lookup MAGIC_ORDER = some SIZE_ORDER ∧
    (100 : Nat) ≠ SIZE_ORDER ∧
    (ReadMmap.search_symbol Fbad sym600000 SIZE_ORDER ReadMmap.read_order_record
        1 50).map (fun p => (p.1.map Prod.fst, p.2)) = some ([0], 1) ∧
    (ReadMmap.read_order_record Fbad 0).symbol = sym600000 := by
  decide

/-- **C1 (amended).**  Only the importer validates `struct_size`: its
`read_orders` fails with a size-mismatch error before decoding any record
whenever the header's `struct_size` differs from the 144 bytes mandated by
the `MDOR` magic, whereas the scanner's `search_symbol` and the tail reader
perform no `struct_size` validation and read records with the caller-supplied
record size regardless of the header. -/
theorem C1_import_size_mismatch (f : List Nat) (h : Header)
    (hh : ImportCH.read_header f = some h) (hm : h.magic = MAGIC_ORDER)
    (hs : h.struct_size ≠ SIZE_ORDER) :
    ImportCH.read_orders f = .error (.sizeMismatch h.struct_size SIZE_ORDER) := by
  simp [ImportCH.read_orders, hh, hm, hs]

/-- **C1 witness**: `read_orders` rejects `Fbad` with a size mismatch. -/
theorem C1_import_size_mismatch_witness :
    ImportCH.read_orders Fbad = .error (.sizeMismatch 100 SIZE_ORDER) :=
  C1_import_size_mismatch Fbad ⟨MAGIC_ORDER, 1, 100, 1, 0⟩ (by decide)
    (by decide) (by decide)

namespace ReadMmapV2
/- V2 record decoders of `script/read_mmap_v2.py`. -/

/-- Fields extracted by `read_tick_v2`. -/
structure TickV2 where
  symbol : List Nat
  date : Int
  time : Int
  local_recv_ts : Int
  datatimestamp : Int
  lastpx : Int
  maxpx : Int
  minpx : Int
  preclosepx : Int
deriving Repr, DecidableEq

/-- `read_tick_v2(mm, offset)`. -/
def read_tick_v2 (mm : List Nat) (offset : Nat) : TickV2 :=
  let data := sliceBytes mm (HEADER_SIZE + offset) SIZE_TICK_V2
  { symbol := rstripZeros (sliceBytes data 2168 40)
    date := leI data 2120 4
    time := leI data 2124 4
    local_recv_ts := leI data 0 8
    datatimestamp := leI data 8 8
    lastpx := leI data 64 8
    maxpx := leI data 16 8
    minpx := leI data 24 8
    preclosepx := leI data 32 8 }

/-- Fields extracted by `read_order_v2`. -/
structure OrderV2 where
  symbol : List Nat
  date : Int
  time : Int
  local_recv_ts : Int
  orderindex : Int
  ordertype : Int
  orderprice : Int
  orderqty : Int
  orderbsflag : Int
  orderno : Int
  applseqnum : Int
deriving Repr, DecidableEq

/-- `read_order_v2(mm, offset)`. -/
def read_order_v2 (mm : List Nat) (offset : Nat) : OrderV2 :=
  let data := sliceBytes mm (HEADER_SIZE + offset) SIZE_ORDER_V2
  { symbol := rstripZeros (sliceBytes data 88 40)
    date := leI data 56 4
    time := leI data 60 4
    local_recv_ts := leI data 0 8
    orderindex := leI data 8 8
    ordertype := leI data 72 4
    orderprice := leI data 16 8
    orderqty := leI data 24 8
    orderbsflag := leI data 76 4
    orderno := leI data 32 8
    applseqnum := leI data 48 8 }

/-- Fields extracted by `read_txn_v2`. -/
structure TxnV2 where
  symbol : List Nat
  date : Int
  time : Int
  local_recv_ts : Int
  tradeindex : Int
  tradebuyno : Int
  tradesellno : Int
  tradetype : Int
  tradebsflag : Int
  tradeprice : Int
  tradeqty : Int
  applseqnum : Int
deriving Repr, DecidableEq

/-- `read_txn_v2(mm, offset)`. -/
def read_txn_v2 (mm : List Nat) (offset : Nat) : TxnV2 :=
  let data := sliceBytes mm (HEADER_SIZE + offset) SIZE_TRANSACTION_V2
  { symbol := rstripZeros (sliceBytes data 96 40)
    date := leI data 64 4
    time := leI data 68 4
    local_recv_ts := leI data 0 8
    tradeindex := leI data 8 8
    tradebuyno := leI data 16 8
    tradesellno := leI data 24 8
    tradetype := leI data 80 4
    tradebsflag := leI data 84 4
    tradeprice := leI data 32 8
    tradeqty := leI data 40 8
    applseqnum := leI data 56 8 }

/-- Fields extracted by `read_snap_v2`. -/
structure SnapV2 where
  symbol : List Nat
  date : Int
  time : Int
  local_recv_ts : Int
  datatimestamp : Int
  lastpx : Int
deriving Repr, DecidableEq

/-- `read_snap_v2(mm, offset)`: the buy/sell entry arrays occupy bytes
0–479 of the record, so `local_recv_timestamp` is read from bytes 480–487. -/
def read_snap_v2 (mm : List Nat) (offset : Nat) : SnapV2 :=
  let data := sliceBytes mm (HEADER_SIZE + offset) SIZE_SNAPSHOT_V2
  { symbol := rstripZeros (sliceBytes data 648 40)
    date := leI data 688 4
    time := leI data 692 4
    local_recv_ts := leI data 480 8
    datatimestamp := leI data 488 8
    lastpx := leI data 536 8 }

end ReadMmapV2

/-! ## C4: location of `local_recv_timestamp` in V2 records -/

/-- A V2 snapshot file with one record whose bytes 0–7 hold the value 1 and
whose bytes 480–487 hold the value 2. -/
def FsnapV2 : List Nat :=
  mkHeader MAGIC_ORDERBOOK_V2 2 SIZE_SNAPSHOT_V2 1 0 ++
  (leBytes 8 1 ++ List.replicate 472 0 ++ leBytes 8 2 ++ List.replicate 248 0)

/-- **C4 counterexample.**  The claim places `local_recv_timestamp` at byte
offset 0 of every V2 record.  For the snapshot record of `FsnapV2`, bytes
[0, 8) decode to 1, yet `read_snap_v2` returns 2 — the value stored at
offset 480. -/
theorem C4_counterexample :
    leI (sliceBytes FsnapV2 HEADER_SIZE SIZE_SNAPSHOT_V2) 0 8 = 1 ∧
    (ReadMmapV2.read_snap_v2 FsnapV2 0).local_recv_ts = 2 ∧
    (ReadMmapV2.read_snap_v2 FsnapV2 0).local_recv_ts ≠
      leI (sliceBytes FsnapV2 HEADER_SIZE SIZE_SNAPSHOT_V2) 0 8 := by
  refine ⟨by decide, by decide, ?_⟩
  intro h
  have h1 : leI (sliceBytes FsnapV2 HEADER_SIZE SIZE_SNAPSHOT_V2) 0 8 = 1 := by
    decide
  have h2 : (ReadMmapV2.read_snap_v2 FsnapV2 0).local_recv_ts = 2 := by decide
  rw [h1, h2] at h
  exact absurd h (by decide)

/-- **C4 (amended).**  The V2 Order, Transaction and Tick decoders read
`local_recv_timestamp` as an 8-byte little-endian signed integer from bytes
[0, 8) of the record; the V2 OrderbookSnapshot decoder reads it from bytes
[480, 488), after the 480-byte buy/sell entry arrays. -/
theorem C4_local_recv_offsets (mm : List Nat) (offset : Nat) :
    (ReadMmapV2.read_order_v2 mm offset).local_recv_ts =
      leI (sliceBytes mm (HEADER_SIZE + offset) SIZE_ORDER_V2) 0 8 ∧
    (ReadMmapV2.read_txn_v2 mm offset).local_recv_ts =
      leI (sliceBytes mm (HEADER_SIZE + offset) SIZE_TRANSACTION_V2) 0 8 ∧
    (ReadMmapV2.read_tick_v2 mm offset).local_recv_ts =
      leI (sliceBytes mm (HEADER_SIZE + offset) SIZE_TICK_V2) 0 8 ∧
    (ReadMmapV2.read_snap_v2 mm offset).local_recv_ts =
      leI (sliceBytes mm (HEADER_SIZE + offset) SIZE_SNAPSHOT_V2) 480 8 :=
  ⟨rfl, rfl, rfl, rfl⟩

namespace AnalyzeTiming
/- Embedding of the remote script inside `script/analyze_channel_timing.py`
(`analyze_order_timing`). -/

/-- The remote script's `read_header(mm)` (same 24-byte unpack). -/
def read_header (mm : List Nat) : Option Header :=
  let data := sliceBytes mm 0 HEADER_SIZE
  if data.length < 24 then none
  else some (parseHeader24 data)

/-- Bytes of order record `i`. -/
def orderRecData (mm : List Nat) (i : Nat) : List Nat :=
  sliceBytes mm (HEADER_SIZE + i * SIZE_ORDER) SIZE_ORDER

/-- `count = min(max_records, header['record_count'])`; zero when the header
cannot be parsed (the script would crash). -/
def analyzeCount (mm : List Nat) (max_records : Nat) : Nat :=
  match read_header mm with
  | none => 0
  | some h => min max_records h.record_count

/-- Record indices appended to `channel_data[c]` (file order preserved):
those of the first `analyzeCount` records whose `channelno` (offset 92)
equals `c`. -/
def channelIndices (mm : List Nat) (max_records : Nat) (c : Int) : List Nat :=
  (List.range (analyzeCount mm max_records)).filter
    (fun i => leI (orderRecData mm i) 92 4 == c)

/-- The `ApplSeqNum` sequence (offset 112) of channel `c`, in file order. -/
def channelSeqs (mm : List Nat) (max_records : Nat) (c : Int) : List Int :=
  (channelIndices mm max_records c).map (fun i => leI (orderRecData mm i) 112 8)

/-- The `MDTime` sequence (offset 44) of channel `c`, in file order. -/
def channelTimes (mm : List Nat) (max_records : Nat) (c : Int) : List Int :=
  (channelIndices mm max_records c).map (fun i => leI (orderRecData mm i) 44 4)

/-- The violation-counting loop with running `prev_seq` (initially -1):
count positions where `prev_seq >= 0 and seq <= prev_seq`. -/
def seqViolLoop : Int → List Int → Nat
  | _, [] => 0
  | prev, s :: rest =>
    (if 0 ≤ prev ∧ s ≤ prev then 1 else 0) + seqViolLoop s rest

/-- Sequence-violation count of one channel's `ApplSeqNum` list. -/
def seq_violations (seqs : List Int) : Nat := seqViolLoop (-1) seqs

/-- The `MDTime` loop: count positions where `prev_time >= 0 and
mdtime < prev_time`. -/
def timeViolLoop : Int → List Int → Nat
  | _, [] => 0
  | prev, t :: rest =>
    (if 0 ≤ prev ∧ t < prev then 1 else 0) + timeViolLoop t rest

/-- Time-violation count of one channel's `MDTime` list. -/
def time_violations (times : List Int) : Nat := timeViolLoop (-1) times

/-- What `analyze_order_timing` reports for channel `c`: nothing when the
channel has fewer than 10 records (`if len(records) < 10: continue`),
otherwise the pair of violation counts it prints. -/
def channel_report (mm : List Nat) (max_records : Nat) (c : Int) :
    Option (Nat × Nat) :=
  let records := channelIndices mm max_records c
  if records.length < 10 then none
  else some (seq_violations (channelSeqs mm max_records c),
             time_violations (channelTimes mm max_records c))

end AnalyzeTiming

/-! ## C5: sequence-violation count for the sequence [5, 7, 6, 9] -/

/-- An orders file with 4 records, all on channel 1, carrying the
`ApplSeqNum` sequence [5, 7, 6, 9]. -/
def F5 : List Nat :=
  mkHeader MAGIC_ORDER 1 SIZE_ORDER 4 0 ++
  mkOrderRecV1 sym600000 93000050 1 5 ++
  mkOrderRecV1 sym600000 93000051 1 7 ++
  mkOrderRecV1 sym600000 93000052 1 6 ++
  mkOrderRecV1 sym600000 93000053 1 9

/-- **C5 counterexample.**  The claim says the Sequence Validator reports
exactly 1 sequence violation for a channel whose records carry ApplSeqNum
[5, 7, 6, 9].  On `F5`, channel 1 carries exactly that sequence, yet the
validator reports nothing for channel 1: `analyze_order_timing` skips every
channel with fewer than 10 records. -/
theorem C5_counterexample :
    AnalyzeTiming.channelSeqs F5 500000 1 = [5, 7, 6, 9] ∧
    AnalyzeTiming.channel_report F5 500000 1 = none := by
  decide

/-- **C5 (amended).**  For every orders file in which channel C's records
carry the ApplSeqNum sequence [5, 7, 6, 9], the validator's violation count
for channel C is exactly 1; however a report is emitted only for channels
with at least 10 records, so a channel holding only those 4 records is
omitted from the report. -/
theorem C5_seq_violations (mm : List Nat) (max_records : Nat) (c : Int)
    (h : AnalyzeTiming.channelSeqs mm max_records c = [5, 7, 6, 9]) :
    AnalyzeTiming.seq_violations (AnalyzeTiming.channelSeqs mm max_records c) = 1 ∧
    AnalyzeTiming.channel_report mm max_records c = none := by
  constructor
  · rw [h]; decide
  · have hlen : (AnalyzeTiming.channelIndices mm max_records c).length = 4 := by
      have hl := congrArg List.length h
      simpa [AnalyzeTiming.channelSeqs, List.length_map] using hl
    unfold AnalyzeTiming.channel_report
    rw [if_pos (by omega)]

/-- **C5 witness**: the amended theorem applied to the concrete file `F5`. -/
theorem C5_seq_violations_witness :
    AnalyzeTiming.seq_violations (AnalyzeTiming.channelSeqs F5 500000 1) = 1 ∧
    AnalyzeTiming.channel_report F5 500000 1 = none :=
  C5_seq_violations F5 500000 1 (by decide)

/-! ## C7: search_symbol pagination characterization -/

namespace ReadMmap

/-- Specification value: the indices in `[0, n)` whose stored symbol contains
`target` as a substring, in ascending file order. -/
def matchedIndices (mm target : List Nat) (record_size n : Nat) : List Nat :=
  (List.range n).filter
    (fun i => decide (List.IsInfix target (get_symbol_from_record mm (i * record_size))))

/-- The search-loop state determined by the list `ms` of matches seen so
far. -/
def searchStateOf {α : Type} (mm : List Nat) (record_size : Nat)
    (read_func : List Nat → Nat → α) (skip_count page_size : Nat)
    (ms : List Nat) : SearchState α :=
  { results := ((ms.drop skip_count).take page_size).map
      (fun i => (i, read_func mm (i * record_size)))
    found := ms.length
    skipped := min skip_count ms.length }

theorem searchStep_stateOf {α : Type} (mm target : List Nat)
    (record_size : Nat) (read_func : List Nat → Nat → α)
    (skip_count page_size : Nat) (ms : List Nat) (i : Nat) :
    searchStep mm target record_size read_func skip_count page_size
      (searchStateOf mm record_size read_func skip_count page_size ms) i =
    searchStateOf mm record_size read_func skip_count page_size
      (ms ++ if List.IsInfix target (get_symbol_from_record mm (i * record_size))
             then [i] else []) := by
  by_cases hm : List.IsInfix target (get_symbol_from_record mm (i * record_size))
  · rw [if_pos hm]
    unfold searchStep searchStateOf
    rw [if_pos hm]
    simp only [List.length_map, List.length_take, List.length_drop,
      List.length_append, List.length_singleton]
    by_cases hs : ms.length < skip_count
    · rw [if_pos (by omega)]
      have hdrop : (ms ++ [i]).drop skip_count = [] :=
        List.drop_eq_nil_of_le (by simp; omega)
      have hdrop' : ms.drop skip_count = [] :=
        List.drop_eq_nil_of_le (by omega)
      simp [hdrop, hdrop']
      omega
    · rw [if_neg (by omega)]
      have hd : (ms ++ [i]).drop skip_count = ms.drop skip_count ++ [i] :=
        List.drop_append_of_le_length (by omega)
      by_cases hfull : ms.length - skip_count < page_size
      · rw [if_pos (by omega)]
        have htk : (ms.drop skip_count).take page_size = ms.drop skip_count :=
          List.take_of_length_le (by rw [List.length_drop]; omega)
        have ht : (ms.drop skip_count ++ [i]).take page_size =
            ms.drop skip_count ++ [i] :=
          List.take_of_length_le (by simp [List.length_drop]; omega)
        simp [hd, ht, htk]
        omega
      · rw [if_neg (by omega)]
        have ht : (ms.drop skip_count ++ [i]).take page_size =
            (ms.drop skip_count).take page_size := by
          rw [List.take_append_eq_append_take]
          have h0 : page_size - (ms.drop skip_count).length = 0 := by
            rw [List.length_drop]; omega
          rw [h0]
          simp
        simp [hd, ht]
        omega
  · rw [if_neg hm]
    unfold searchStep searchStateOf
    rw [if_neg hm]
    simp

theorem searchFold_stateOf {α : Type} (mm target : List Nat)
    (record_size : Nat) (read_func : List Nat → Nat → α)
    (skip_count page_size : Nat) (is ms : List Nat) :
    is.foldl (searchStep mm target record_size read_func skip_count page_size)
      (searchStateOf mm record_size read_func skip_count page_size ms) =
    searchStateOf mm record_size read_func skip_count page_size
      (ms ++ is.filter (fun i =>
        decide (List.IsInfix target (get_symbol_from_record mm (i * record_size))))) := by
  induction is generalizing ms with
  | nil => simp
  | cons i is ih =>
    rw [List.foldl_cons, searchStep_stateOf, ih, List.filter_cons]
    by_cases hm : List.IsInfix target (get_symbol_from_record mm (i * record_size))
    · simp [hm]
    · simp [hm]

end ReadMmap

/-- **C7.**  For a file with parsable header, `search_symbol` reports as total
count the number of indices in `[0, record_count)` whose decoded symbol
contains the target as a substring, and returns exactly the matches at match
positions `(page-1)*page_size … (page-1)*page_size + page_size - 1` of the
full scan (fewer if the matches run out), as `(index, decoded record)` pairs
in ascending file-index order. -/
theorem C7_search_pagination {α : Type} (mm target : List Nat)
    (record_size : Nat) (read_func : List Nat → Nat → α)
    (page page_size : Nat) (h : Header)
    (hh : ReadMmap.read_header mm = some h) :
    ReadMmap.search_symbol mm target record_size read_func page page_size =
      some ((((ReadMmap.matchedIndices mm target record_size h.record_count).drop
          ((page - 1) * page_size)).take page_size).map
            (fun i => (i, read_func mm (i * record_size))),
        (ReadMmap.matchedIndices mm target record_size h.record_count).length) ∧
    List.Sorted (· < ·)
      (((ReadMmap.matchedIndices mm target record_size h.record_count).drop
          ((page - 1) * page_size)).take page_size) := by
  constructor
  · simp only [ReadMmap.search_symbol, hh]
    by_cases h0 : h.record_count = 0
    · rw [if_pos h0]
      simp [ReadMmap.matchedIndices, h0]
    · rw [if_neg h0]
      have hinit : (⟨[], 0, 0⟩ : ReadMmap.SearchState α) =
          ReadMmap.searchStateOf mm record_size read_func
            ((page - 1) * page_size) page_size [] := by
        simp [ReadMmap.searchStateOf]
      simp only [hinit, ReadMmap.searchFold_stateOf, List.nil_append]
      rfl
  · exact List.Pairwise.sublist
      ((List.take_sublist _ _).trans (List.drop_sublist _ _))
      ((List.pairwise_lt_range _).filter _)

/-- **C7 witness**: the theorem applied to the concrete 4-record file `F5`
(all records match symbol `600000`), requesting page 1 of size 2. -/
theorem C7_search_pagination_witness :
    ReadMmap.search_symbol F5 sym600000 SIZE_ORDER ReadMmap.read_order_record 1 2 =
      some ((((ReadMmap.matchedIndices F5 sym600000 SIZE_ORDER 4).drop 0).take 2).map
          (fun i => (i, ReadMmap.read_order_record F5 (i * SIZE_ORDER))), 
        (ReadMmap.matchedIndices F5 sym600000 SIZE_ORDER 4).length) ∧
    List.Sorted (· < ·)
      (((ReadMmap.matchedIndices F5 sym600000 SIZE_ORDER 4).drop 0).take 2) :=
  C7_search_pagination F5 sym600000 SIZE_ORDER ReadMmap.read_order_record 1 2
    ⟨MAGIC_ORDER, 1, 144, 4, 0⟩ (by decide)

/-! ## C8: tail reads -/

theorem foldl_append_eq_map {α β : Type} (f : α → β) (l : List α)
    (acc : List β) :
    l.foldl (fun a i => a ++ [f i]) acc = acc ++ l.map f := by
  induction l generalizing acc with
  | nil => simp
  | cons x xs ih => simp [ih]

/-- **C8.**  For a file with parsable header and any requested tail count,
`read_tail_records` returns exactly `min count record_count` records, namely
the records at indices `record_count - count … record_count - 1` (saturating
at 0, i.e. `max 0 (record_count - count)`), as `(index, decoded record)`
pairs in ascending index order. -/
theorem C8_tail_records {α : Type} (mm : List Nat) (record_size : Nat)
    (read_func : List Nat → Nat → α) (count : Nat) (h : Header)
    (hh : ReadMmap.read_header mm = some h) :
    ReadMmap.read_tail_records mm record_size read_func count =
      some ((List.range' (h.record_count - count) (min count h.record_count)).map
        (fun i => (i, read_func mm (i * record_size)))) ∧
    ((List.range' (h.record_count - count) (min count h.record_count)).map
        (fun i => (i, read_func mm (i * record_size)))).length =
      min count h.record_count ∧
    List.Sorted (· < ·)
      (((List.range' (h.record_count - count) (min count h.record_count)).map
        (fun i => (i, read_func mm (i * record_size)))).map Prod.fst) := by
  refine ⟨?_, by simp [List.length_range'], ?_⟩
  · simp only [ReadMmap.read_tail_records, hh]
    by_cases h0 : h.record_count = 0
    · rw [if_pos h0]
      simp [h0]
    · rw [if_neg h0]
      rw [foldl_append_eq_map]
      have hmax : max 0 (h.record_count - count) = h.record_count - count := by
        omega
      have hmin : h.record_count - (h.record_count - count) =
          min count h.record_count := by omega
      rw [hmax, hmin, List.nil_append]
  · show List.Pairwise (· < ·) _
    rw [List.map_map, List.pairwise_map]
    simpa using List.pairwise_lt_range' _ _

/-- **C8 witness**: tail of 2 records from the 4-record file `F5`. -/
theorem C8_tail_records_witness :
    ReadMmap.read_tail_records F5 SIZE_ORDER ReadMmap.read_order_record 2 =
      some ((List.range' 2 2).map
        (fun i => (i, ReadMmap.read_order_record F5 (i * SIZE_ORDER)))) ∧
    ((List.range' 2 2).map
        (fun i => (i, ReadMmap.read_order_record F5 (i * SIZE_ORDER)))).length = 2 ∧
    List.Sorted (· < ·)
      (((List.range' 2 2).map
        (fun i => (i, ReadMmap.read_order_record F5 (i * SIZE_ORDER)))).map
          Prod.fst) :=
  C8_tail_records F5 SIZE_ORDER ReadMmap.read_order_record 2
    ⟨MAGIC_ORDER, 1, 144, 4, 0⟩ (by decide)

/-! ## Batch exporter (`script/batch_export_server.py`) -/

/-- A value in an exported `Key: value` line: a raw integer, a decoded byte
string, or a fixed literal. -/
inductive FVal where
  | int (v : Int)
  | str (s : List Nat)
  | lit (s : String)
deriving Repr, DecidableEq

/-- One exported text line, as the ordered list of its `Key: value` pairs. -/
abbrev Line := List (String × FVal)

namespace BatchExport

/-- The exporter's `read_header(mm)` (same 24-byte unpack; it returns only
`record_count` and `struct_size`, modeled by the full header). -/
def read_header (mm : List Nat) : Option Header :=
  let data := sliceBytes mm 0 HEADER_SIZE
  if data.length < 24 then none
  else some (parseHeader24 data)

/-- Bytes of record `i` for a given record size:
`mm.seek(HEADER_SIZE + i*size); mm.read(size)`. -/
def record_data (mm : List Nat) (size i : Nat) : List Nat :=
  sliceBytes mm (HEADER_SIZE + i * size) size

/-- `for target in symbols_bytes: if target in sym: matched = target; break` —
the index of the first target that is a substring of `sym`.  The Python `set`
iteration order is modeled by the list order of `symbols`. -/
def firstMatch (symbols : List (List Nat)) (sym : List Nat) : Option Nat :=
  symbols.findIdx? (fun t => decide (List.IsInfix t sym))

/-- `if end_time and mdtime >= end_time: continue` — the record is dropped by
the time filter exactly when `end_time` is truthy (not `None`, not 0) and
`mdtime >= end_time`. -/
def time_filtered (end_time : Option Int) (mdtime : Int) : Bool :=
  match end_time with
  | none => false
  | some t => decide (t ≠ 0) && decide (t ≤ mdtime)

/-- The order line of `export_orders_batch` (field order as in the source;
`OrderNO` is emitted only when positive; the exchange tag comes from the
matched target symbol's first character). -/
def order_line (sym_str matched_sym : List Nat)
    (mddate mdtime orderindex ordertype orderprice orderqty orderbsflag
     channelno orderno applseqnum : Int) : Line :=
  let exchange : String := if matched_sym.head? = some 0x36 then "XSHG" else "XSHE"
  [("HTSCSecurityID", .str sym_str), ("MDDate", .int mddate),
   ("MDTime", .int mdtime), ("securityIDSource", .lit exchange),
   ("securityType", .lit "StockType"), ("OrderIndex", .int orderindex)] ++
  (if orderno > 0 then [("OrderNO", .int orderno)] else []) ++
  [("OrderType", .int ordertype), ("OrderPrice", .int orderprice),
   ("OrderQty", .int orderqty), ("OrderBSFlag", .int orderbsflag),
   ("ChannelNo", .int channelno), ("ApplSeqNum", .int applseqnum),
   ("DataMultiplePowerOf10", .int 4)]

/-- The transaction line of `export_transactions_batch`; `TradeBuyNo`,
`TradeSellNo`, `TradePrice` and `TradeMoney` are emitted only when
positive. -/
def txn_line (sym_str matched_sym : List Nat)
    (mddate mdtime tradeindex tradetype tradebsflag tradebuyno tradesellno
     tradeprice tradeqty trademoney applseqnum channelno : Int) : Line :=
  let exchange : String := if matched_sym.head? = some 0x36 then "XSHG" else "XSHE"
  [("HTSCSecurityID", .str sym_str), ("MDDate", .int mddate),
   ("MDTime", .int mdtime), ("securityIDSource", .lit exchange),
   ("securityType", .lit "StockType"), ("TradeIndex", .int tradeindex)] ++
  (if tradebuyno > 0 then [("TradeBuyNo", .int tradebuyno)] else []) ++
  (if tradesellno > 0 then [("TradeSellNo", .int tradesellno)] else []) ++
  [("TradeType", .int tradetype), ("TradeBSFlag", .int tradebsflag)] ++
  (if tradeprice > 0 then [("TradePrice", .int tradeprice)] else []) ++
  [("TradeQty", .int tradeqty)] ++
  (if trademoney > 0 then [("TradeMoney", .int trademoney)] else []) ++
  [("ApplSeqNum", .int applseqnum), ("ChannelNo", .int channelno),
   ("DataMultiplePowerOf10", .int 4)]

/-- The line written for order record `i` when it matched target index `j`. -/
def order_line_of (mm : List Nat) (symbols : List (List Nat)) (j i : Nat) :
    Line :=
  let data := record_data mm SIZE_ORDER i
  order_line (rstripZeros (sliceBytes data 0 40)) (symbols.getD j [])
    (leI data 40 4) (leI data 44 4) (leI data 56 8) (leI data 64 4)
    (leI data 72 8) (leI data 80 8) (leI data 88 4) (leI data 92 4)
    (leI data 96 8) (leI data 112 8)

/-- The line written for transaction record `i` when it matched target
index `j`. -/
def txn_line_of (mm : List Nat) (symbols : List (List Nat)) (j i : Nat) :
    Line :=
  let data := record_data mm SIZE_TRANSACTION i
  txn_line (rstripZeros (sliceBytes data 0 40)) (symbols.getD j [])
    (leI data 40 4) (leI data 44 4) (leI data 56 8) (leI data 80 4)
    (leI data 84 4) (leI data 64 8) (leI data 72 8) (leI data 88 8)
    (leI data 96 8) (leI data 104 8) (leI data 112 8) (leI data 120 4)

/-- Exporter loop state: number of record reads performed (`mm.read` of one
record per iteration), the per-target match counters (`counts`), and the
per-target output streams (`files`). -/
structure ExportState where
  reads : Nat
  counts : List Nat
  outs : List (List Line)
deriving Repr

/-- One iteration of `export_orders_batch` at record index `i`. -/
def export_order_step (mm : List Nat) (symbols : List (List Nat))
    (end_time : Option Int) (st : ExportState) (i : Nat) : ExportState :=
  let data := record_data mm SIZE_ORDER i
  let sym := rstripZeros (sliceBytes data 0 40)
  match firstMatch symbols sym with
  | none => { st with reads := st.reads + 1 }
  | some j =>
    if time_filtered end_time (leI data 44 4) then
      { st with reads := st.reads + 1 }
    else
      { reads := st.reads + 1
        counts := st.counts.set j (st.counts.getD j 0 + 1)
        outs := st.outs.set j (st.outs.getD j [] ++ [order_line_of mm symbols j i]) }

/-- `export_orders_batch(filepath, symbols, output_dir, end_time)`: one
sequential pass over `[0, record_count)`; returns the per-symbol counts, the
per-symbol output streams, and the number of record reads performed. -/
def export_orders_batch (mm : List Nat) (symbols : List (List Nat))
    (end_time : Option Int) :
    Option (List Nat × List (List Line) × Nat) :=
  match read_header mm with
  | none => none
  | some header =>
    let fin := (List.range header.record_count).foldl
      (export_order_step mm symbols end_time)
      ⟨0, List.replicate symbols.length 0, List.replicate symbols.length []⟩
    some (fin.counts, fin.outs, fin.reads)

/-- One iteration of `export_transactions_batch` at record index `i`. -/
def export_txn_step (mm : List Nat) (symbols : List (List Nat))
    (end_time : Option Int) (st : ExportState) (i : Nat) : ExportState :=
  let data := record_data mm SIZE_TRANSACTION i
  let sym := rstripZeros (sliceBytes data 0 40)
  match firstMatch symbols sym with
  | none => { st with reads := st.reads + 1 }
  | some j =>
    if time_filtered end_time (leI data 44 4) then
      { st with reads := st.reads + 1 }
    else
      { reads := st.reads + 1
        counts := st.counts.set j (st.counts.getD j 0 + 1)
        outs := st.outs.set j (st.outs.getD j [] ++ [txn_line_of mm symbols j i]) }

/-- `export_transactions_batch(filepath, symbols, output_dir, end_time)`. -/
def export_transactions_batch (mm : List Nat) (symbols : List (List Nat))
    (end_time : Option Int) :
    Option (List Nat × List (List Line) × Nat) :=
  match read_header mm with
  | none => none
  | some header =>
    let fin := (List.range header.record_count).foldl
      (export_txn_step mm symbols end_time)
      ⟨0, List.replicate symbols.length 0, List.replicate symbols.length []⟩
    some (fin.counts, fin.outs, fin.reads)

/-- The record-area byte reads of one `export_orders_batch` pass: one
unconditional `mm.read(SIZE_ORDER)` at `HEADER_SIZE + i*SIZE_ORDER` per
iteration. -/
def export_orders_reads (record_count : Nat) : List (Nat × Nat) :=
  (List.range record_count).map
    (fun i => (HEADER_SIZE + i * SIZE_ORDER, SIZE_ORDER))

end BatchExport

namespace DownloadMmap
/- The per-symbol exporter embedded in `script/download_mmap_data.py`
(`export_transactions` of the remote script). -/

/-- The transaction line of `export_transactions`: same conditional fields as
the batch exporter; the exchange tag comes from the record's own decoded
symbol. -/
def txn_line (sym_str : List Nat)
    (mddate mdtime tradeindex tradetype tradebsflag tradebuyno tradesellno
     tradeprice tradeqty trademoney applseqnum channelno : Int) : Line :=
  let exchange : String := if sym_str.head? = some 0x36 then "XSHG" else "XSHE"
  [("HTSCSecurityID", .str sym_str), ("MDDate", .int mddate),
   ("MDTime", .int mdtime), ("securityIDSource", .lit exchange),
   ("securityType", .lit "StockType"), ("TradeIndex", .int tradeindex)] ++
  (if tradebuyno > 0 then [("TradeBuyNo", .int tradebuyno)] else []) ++
  (if tradesellno > 0 then [("TradeSellNo", .int tradesellno)] else []) ++
  [("TradeType", .int tradetype), ("TradeBSFlag", .int tradebsflag)] ++
  (if tradeprice > 0 then [("TradePrice", .int tradeprice)] else []) ++
  [("TradeQty", .int tradeqty)] ++
  (if trademoney > 0 then [("TradeMoney", .int trademoney)] else []) ++
  [("ApplSeqNum", .int applseqnum), ("ChannelNo", .int channelno),
   ("DataMultiplePowerOf10", .int 4)]

end DownloadMmap

/-! ## C9: conditional fields in exported lines -/

/-- **C9.**  In every order line of the batch exporter, `OrderNO` appears iff
the decoded value is strictly positive; in every transaction line of both the
batch exporter and the per-symbol exporter, `TradeBuyNo`, `TradeSellNo`,
`TradePrice` and `TradeMoney` each appear iff the corresponding decoded value
is strictly positive (0 or less suppresses the field). -/
theorem C9_conditional_fields (sym matched : List Nat)
    (mddate mdtime orderindex ordertype orderprice orderqty orderbsflag
     channelno orderno applseqnum tradeindex tradetype tradebsflag tradebuyno
     tradesellno tradeprice tradeqty trademoney : Int) :
    (("OrderNO" ∈ (BatchExport.order_line sym matched mddate mdtime orderindex
        ordertype orderprice orderqty orderbsflag channelno orderno
        applseqnum).map Prod.fst) ↔ 0 < orderno) ∧
    (("TradeBuyNo" ∈ (BatchExport.txn_line sym matched mddate mdtime tradeindex
        tradetype tradebsflag tradebuyno tradesellno tradeprice tradeqty
        trademoney applseqnum channelno).map Prod.fst) ↔ 0 < tradebuyno) ∧
    (("TradeSellNo" ∈ (BatchExport.txn_line sym matched mddate mdtime tradeindex
        tradetype tradebsflag tradebuyno tradesellno tradeprice tradeqty
        trademoney applseqnum channelno).map Prod.fst) ↔ 0 < tradesellno) ∧
    (("TradePrice" ∈ (BatchExport.txn_line sym matched mddate mdtime tradeindex
        tradetype tradebsflag tradebuyno tradesellno tradeprice tradeqty
        trademoney applseqnum channelno).map Prod.fst) ↔ 0 < tradeprice) ∧
    (("TradeMoney" ∈ (BatchExport.txn_line sym matched mddate mdtime tradeindex
        tradetype tradebsflag tradebuyno tradesellno tradeprice tradeqty
        trademoney applseqnum channelno).map Prod.fst) ↔ 0 < trademoney) ∧
    (("TradeBuyNo" ∈ (DownloadMmap.txn_line sym mddate mdtime tradeindex
        tradetype tradebsflag tradebuyno tradesellno tradeprice tradeqty
        trademoney applseqnum channelno).map Prod.fst) ↔ 0 < tradebuyno) ∧
    (("TradeSellNo" ∈ (DownloadMmap.txn_line sym mddate mdtime tradeindex
        tradetype tradebsflag tradebuyno tradesellno tradeprice tradeqty
        trademoney applseqnum channelno).map Prod.fst) ↔ 0 < tradesellno) ∧
    (("TradePrice" ∈ (DownloadMmap.txn_line sym mddate mdtime tradeindex
        tradetype tradebsflag tradebuyno tradesellno tradeprice tradeqty
        trademoney applseqnum channelno).map Prod.fst) ↔ 0 < tradeprice) ∧
    (("TradeMoney" ∈ (DownloadMmap.txn_line sym mddate mdtime tradeindex
        tradetype tradebsflag tradebuyno tradesellno tradeprice tradeqty
        trademoney applseqnum channelno).map Prod.fst) ↔ 0 < trademoney) := by
  refine ⟨?_, ?_, ?_, ?_, ?_, ?_, ?_, ?_, ?_⟩
  · by_cases h : (0:Int) < orderno <;> simp [BatchExport.order_line, h]
  · by_cases h : (0:Int) < tradebuyno <;>
      by_cases h2 : (0:Int) < tradesellno <;>
      by_cases h3 : (0:Int) < tradeprice <;>
      by_cases h4 : (0:Int) < trademoney <;>
      simp [BatchExport.txn_line, h, h2, h3, h4]
  · by_cases h : (0:Int) < tradebuyno <;>
      by_cases h2 : (0:Int) < tradesellno <;>
      by_cases h3 : (0:Int) < tradeprice <;>
      by_cases h4 : (0:Int) < trademoney <;>
      simp [BatchExport.txn_line, h, h2, h3, h4]
  · by_cases h : (0:Int) < tradebuyno <;>
      by_cases h2 : (0:Int) < tradesellno <;>
      by_cases h3 : (0:Int) < tradeprice <;>
      by_cases h4 : (0:Int) < trademoney <;>
      simp [BatchExport.txn_line, h, h2, h3, h4]
  · by_cases h : (0:Int) < tradebuyno <;>
      by_cases h2 : (0:Int) < tradesellno <;>
      by_cases h3 : (0:Int) < tradeprice <;>
      by_cases h4 : (0:Int) < trademoney <;>
      simp [BatchExport.txn_line, h, h2, h3, h4]
  · by_cases h : (0:Int) < tradebuyno <;>
      by_cases h2 : (0:Int) < tradesellno <;>
      by_cases h3 : (0:Int) < tradeprice <;>
      by_cases h4 : (0:Int) < trademoney <;>
      simp [DownloadMmap.txn_line, h, h2, h3, h4]
  · by_cases h : (0:Int) < tradebuyno <;>
      by_cases h2 : (0:Int) < tradesellno <;>
      by_cases h3 : (0:Int) < tradeprice <;>
      by_cases h4 : (0:Int) < trademoney <;>
      simp [DownloadMmap.txn_line, h, h2, h3, h4]
  · by_cases h : (0:Int) < tradebuyno <;>
      by_cases h2 : (0:Int) < tradesellno <;>
      by_cases h3 : (0:Int) < tradeprice <;>
      by_cases h4 : (0:Int) < trademoney <;>
      simp [DownloadMmap.txn_line, h, h2, h3, h4]
  · by_cases h : (0:Int) < tradebuyno <;>
      by_cases h2 : (0:Int) < tradesellno <;>
      by_cases h3 : (0:Int) < tradeprice <;>
      by_cases h4 : (0:Int) < trademoney <;>
      simp [DownloadMmap.txn_line, h, h2, h3, h4]

/-! ## C10: a zero or absent end-time bound disables time filtering -/

/-- **C10.**  An end-time bound of `None` or `0` disables time filtering
entirely: the guard tests the truthiness of `end_time` before comparing, so
`time_filtered` is false for every `MDTime`, and both batch exporters behave
identically under `end_time = 0` and `end_time = None`. -/
theorem C10_zero_end_time_disables_filter :
    (∀ md : Int, BatchExport.time_filtered none md = false) ∧
    (∀ md : Int, BatchExport.time_filtered (some 0) md = false) ∧
    (∀ (mm : List Nat) (symbols : List (List Nat)),
      BatchExport.export_orders_batch mm symbols (some 0) =
        BatchExport.export_orders_batch mm symbols none) ∧
    (∀ (mm : List Nat) (symbols : List (List Nat)),
      BatchExport.export_transactions_batch mm symbols (some 0) =
        BatchExport.export_transactions_batch mm symbols none) := by
  have hf0 : ∀ md : Int, BatchExport.time_filtered (some 0) md = false := by
    intro md; simp [BatchExport.time_filtered]
  have hfn : ∀ md : Int, BatchExport.time_filtered none md = false :=
    fun _ => rfl
  refine ⟨hfn, hf0, ?_, ?_⟩
  · intro mm symbols
    have hstep : BatchExport.export_order_step mm symbols (some 0) =
        BatchExport.export_order_step mm symbols none := by
      funext st i
      simp only [BatchExport.export_order_step, hf0, hfn]
    unfold BatchExport.export_orders_batch
    rw [hstep]
  · intro mm symbols
    have hstep : BatchExport.export_txn_step mm symbols (some 0) =
        BatchExport.export_txn_step mm symbols none := by
      funext st i
      simp only [BatchExport.export_txn_step, hf0, hfn]
    unfold BatchExport.export_transactions_batch
    rw [hstep]

/-! ## C2: all record accesses stay below `HEADER_SIZE + record_count * struct_size` -/

theorem searchStepReads_mem_of (mm target : List Nat)
    (record_size skip_count page_size : Nat)
    (st : ReadMmap.SearchState Unit × List ReadMmap.ReadSpan) (i : Nat)
    (p : ReadMmap.ReadSpan)
    (hp : p ∈ (ReadMmap.searchStepReads mm target record_size skip_count
      page_size st i).2) :
    p ∈ st.2 ∨ p = (HEADER_SIZE + i * record_size, 40) ∨
      p = (HEADER_SIZE + i * record_size, record_size) := by
  simp only [ReadMmap.searchStepReads] at hp
  split_ifs at hp <;> simp only [List.mem_append, List.mem_singleton,
    List.mem_cons, List.not_mem_nil, or_false] at hp <;> tauto

theorem searchFoldReads_bound (mm target : List Nat)
    (record_size skip_count page_size record_count : Nat) :
    ∀ (is : List Nat), (∀ i ∈ is, i < record_count) →
    ∀ (st : ReadMmap.SearchState Unit × List ReadMmap.ReadSpan),
      (∀ p ∈ st.2, ∃ i, i < record_count ∧
        p.1 = HEADER_SIZE + i * record_size ∧ (p.2 = 40 ∨ p.2 = record_size)) →
      ∀ p ∈ (is.foldl (ReadMmap.searchStepReads mm target record_size
          skip_count page_size) st).2,
        ∃ i, i < record_count ∧ p.1 = HEADER_SIZE + i * record_size ∧
          (p.2 = 40 ∨ p.2 = record_size) := by
  intro is
  induction is with
  | nil => intro _ st hst p hp; exact hst p hp
  | cons i is ih =>
    intro his st hst p hp
    rw [List.foldl_cons] at hp
    refine ih (fun j hj => his j (List.mem_cons_of_mem _ hj)) _ ?_ p hp
    intro q hq
    rcases searchStepReads_mem_of mm target record_size skip_count page_size
      st i q hq with hcase | hcase | hcase
    · exact hst q hcase
    · exact ⟨i, his i (List.mem_cons_self _ _), by rw [hcase], by rw [hcase]; left; rfl⟩
    · exact ⟨i, his i (List.mem_cons_self _ _), by rw [hcase], by rw [hcase]; right; rfl⟩

theorem span_le_region (i record_count struct_size l : Nat)
    (hi : i < record_count) (hl : l ≤ struct_size) :
    HEADER_SIZE + i * struct_size + l ≤
      HEADER_SIZE + record_count * struct_size := by
  have h2 : i + 1 ≤ record_count := hi
  have h3 : (i + 1) * struct_size ≤ record_count * struct_size :=
    Nat.mul_le_mul_right _ h2
  have h4 : (i + 1) * struct_size = i * struct_size + struct_size := by ring
  omega

/-- **C2.**  Every record access of the scanner, the tail reader and the
batch exporter is at an index `i < record_count`, at starting byte
`HEADER_SIZE + i * size` with length at most the per-record size; hence,
when the per-record size used equals the header's `struct_size` (which the
magic table forces to be ≥ 40), no read touches a byte at or beyond
`HEADER_SIZE + record_count * struct_size`, however large the physical file
is. -/
theorem C2_reads_within_region (mm target : List Nat)
    (struct_size page page_size count : Nat) (h : Header)
    (hh : ReadMmap.read_header mm = some h) (h40 : 40 ≤ struct_size) :
    (∀ p ∈ ReadMmap.search_symbol_reads mm target struct_size page page_size,
      ∃ i, i < h.record_count ∧ p.1 = HEADER_SIZE + i * struct_size ∧
        (p.2 = 40 ∨ p.2 = struct_size)) ∧
    (∀ p ∈ ReadMmap.search_symbol_reads mm target struct_size page page_size,
      p.1 + p.2 ≤ HEADER_SIZE + h.record_count * struct_size) ∧
    (∀ p ∈ ReadMmap.read_tail_reads mm struct_size count,
      ∃ i, i < h.record_count ∧ p.1 = HEADER_SIZE + i * struct_size ∧
        p.2 = struct_size) ∧
    (∀ p ∈ ReadMmap.read_tail_reads mm struct_size count,
      p.1 + p.2 ≤ HEADER_SIZE + h.record_count * struct_size) ∧
    (∀ record_count : Nat, ∀ p ∈ BatchExport.export_orders_reads record_count,
      ∃ i, i < record_count ∧ p.1 = HEADER_SIZE + i * SIZE_ORDER ∧
        p.2 = SIZE_ORDER) ∧
    (∀ record_count : Nat, ∀ p ∈ BatchExport.export_orders_reads record_count,
      p.1 + p.2 ≤ HEADER_SIZE + record_count * SIZE_ORDER) := by
  have hsearch : ∀ p ∈ ReadMmap.search_symbol_reads mm target struct_size
      page page_size,
      ∃ i, i < h.record_count ∧ p.1 = HEADER_SIZE + i * struct_size ∧
        (p.2 = 40 ∨ p.2 = struct_size) := by
    simp only [ReadMmap.search_symbol_reads, hh]
    by_cases h0 : h.record_count = 0
    · rw [if_pos h0]; intro p hp; exact absurd hp (List.not_mem_nil p)
    · rw [if_neg h0]
      exact searchFoldReads_bound mm target struct_size _ page_size
        h.record_count (List.range h.record_count)
        (fun i hi => List.mem_range.mp hi) _ (by intro p hp; simp at hp)
  have htail : ∀ p ∈ ReadMmap.read_tail_reads mm struct_size count,
      ∃ i, i < h.record_count ∧ p.1 = HEADER_SIZE + i * struct_size ∧
        p.2 = struct_size := by
    simp only [ReadMmap.read_tail_reads, hh]
    by_cases h0 : h.record_count = 0
    · rw [if_pos h0]; intro p hp; exact absurd hp (List.not_mem_nil p)
    · rw [if_neg h0]
      intro p hp
      rcases List.mem_map.mp hp with ⟨i, hi, rfl⟩
      rcases List.mem_range'_1.mp hi with ⟨hlo, hhi⟩
      exact ⟨i, by omega, rfl, rfl⟩
  have hexp : ∀ record_count : Nat,
      ∀ p ∈ BatchExport.export_orders_reads record_count,
      ∃ i, i < record_count ∧ p.1 = HEADER_SIZE + i * SIZE_ORDER ∧
        p.2 = SIZE_ORDER := by
    intro rc p hp
    rcases List.mem_map.mp hp with ⟨i, hi, rfl⟩
    exact ⟨i, List.mem_range.mp hi, rfl, rfl⟩
  refine ⟨hsearch, ?_, htail, ?_, hexp, ?_⟩
  · intro p hp
    rcases hsearch p hp with ⟨i, hi, he, hl⟩
    rw [he]
    rcases hl with hl | hl <;> rw [hl] <;>
      exact span_le_region i h.record_count struct_size _ hi (by omega)
  · intro p hp
    rcases htail p hp with ⟨i, hi, he, hl⟩
    rw [he, hl]
    exact span_le_region i h.record_count struct_size _ hi (by omega)
  · intro rc p hp
    rcases hexp rc p hp with ⟨i, hi, he, hl⟩
    rw [he, hl]
    exact span_le_region i rc SIZE_ORDER _ hi (by omega)

/-- **C2 witness**: the bounds instantiated on the concrete 4-record orders
file `F5` with `struct_size = 144`. -/
theorem C2_reads_within_region_witness :
    40 ≤ SIZE_ORDER ∧
    (∀ p ∈ ReadMmap.search_symbol_reads F5 sym600000 SIZE_ORDER 1 50,
      p.1 + p.2 ≤ HEADER_SIZE + 4 * SIZE_ORDER) ∧
    (∀ p ∈ ReadMmap.read_tail_reads F5 SIZE_ORDER 2,
      p.1 + p.2 ≤ HEADER_SIZE + 4 * SIZE_ORDER) ∧
    (∀ p ∈ BatchExport.export_orders_reads 4,
      p.1 + p.2 ≤ HEADER_SIZE + 4 * SIZE_ORDER) :=
  ⟨by decide,
   (C2_reads_within_region F5 sym600000 SIZE_ORDER 1 50 2
     ⟨MAGIC_ORDER, 1, 144, 4, 0⟩ (by decide) (by decide)).2.1,
   (C2_reads_within_region F5 sym600000 SIZE_ORDER 1 50 2
     ⟨MAGIC_ORDER, 1, 144, 4, 0⟩ (by decide) (by decide)).2.2.2.1,
   (C2_reads_within_region F5 sym600000 SIZE_ORDER 1 50 2
     ⟨MAGIC_ORDER, 1, 144, 4, 0⟩ (by decide) (by decide)).2.2.2.2.2 4⟩

/-! ## C6: single-pass batch export -/

theorem getD_map_range {β : Type} (f : Nat → β) (n j : Nat) (d : β)
    (hj : j < n) : (List.map f (List.range n)).getD j d = f j := by
  rw [List.getD_eq_getElem?_getD, List.getElem?_map, List.getElem?_range hj]
  rfl

theorem map_range_set {β : Type} (f : Nat → β) (n j : Nat) (v : β)
    (hj : j < n) :
    (List.map f (List.range n)).set j v =
      List.map (fun k => if k = j then v else f k) (List.range n) := by
  apply List.ext_getElem?
  intro k
  by_cases hk : k < n
  · by_cases hkj : k = j
    · subst hkj
      rw [List.getElem?_set_self (by simpa using hj), List.getElem?_map,
        List.getElem?_range hk]
      simp
    · rw [List.getElem?_set_ne (fun hjk => hkj hjk.symm), List.getElem?_map,
        List.getElem?_map, List.getElem?_range hk]
      simp [hkj]
  · have h1 : (List.map f (List.range n)).length ≤ k := by
      simpa using Nat.le_of_not_lt hk
    have h2 : (List.map (fun k => if k = j then v else f k)
        (List.range n)).length ≤ k := by
      simpa using Nat.le_of_not_lt hk
    rw [List.getElem?_eq_none (by simpa using h1),
      List.getElem?_eq_none h2]

theorem sum_set_add_one : ∀ (L : List Nat) (j : Nat), j < L.length →
    (L.set j (L.getD j 0 + 1)).sum = L.sum + 1 := by
  intro L
  induction L with
  | nil => intro j hj; simp at hj
  | cons a L ih =>
    intro j hj
    cases j with
    | zero => simp [List.getD]; omega
    | succ j =>
      have hj' : j < L.length := by simpa using hj
      simp only [List.getD_cons_succ, List.set_cons_succ, List.sum_cons,
        ih j hj']
      omega

namespace BatchExport

/-- Specification value: the first-matching target index for order record
`i`'s stored symbol. -/
def fmatch (mm : List Nat) (symbols : List (List Nat)) (i : Nat) :
    Option Nat :=
  firstMatch symbols (rstripZeros (sliceBytes (record_data mm SIZE_ORDER i) 0 40))

/-- Record indices in `[0, record_count)` whose first matching target is
`j`. -/
def matched_positions (mm : List Nat) (symbols : List (List Nat))
    (record_count j : Nat) : List Nat :=
  (List.range record_count).filter (fun i => fmatch mm symbols i == some j)

/-- Expected per-target counters of one full pass. -/
def counts_spec (mm : List Nat) (symbols : List (List Nat))
    (record_count : Nat) : List Nat :=
  (List.range symbols.length).map
    (fun j => (matched_positions mm symbols record_count j).length)

/-- Expected per-target output streams of one full pass. -/
def outs_spec (mm : List Nat) (symbols : List (List Nat))
    (record_count : Nat) : List (List Line) :=
  (List.range symbols.length).map
    (fun j => (matched_positions mm symbols record_count j).map
      (order_line_of mm symbols j))

/-- Number of records in `[0, record_count)` matching no target. -/
def unmatched_count (mm : List Nat) (symbols : List (List Nat))
    (record_count : Nat) : Nat :=
  ((List.range record_count).filter
    (fun i => (fmatch mm symbols i).isNone)).length

/-- The exporter state after processing exactly the record indices `ps`
(in order) with no end-time bound. -/
def state_of (mm : List Nat) (symbols : List (List Nat)) (ps : List Nat) :
    ExportState :=
  { reads := ps.length
    counts := (List.range symbols.length).map
      (fun j => (ps.filter (fun i => fmatch mm symbols i == some j)).length)
    outs := (List.range symbols.length).map
      (fun j => (ps.filter (fun i => fmatch mm symbols i == some j)).map
        (order_line_of mm symbols j)) }

theorem export_order_step_eq (mm : List Nat) (symbols : List (List Nat))
    (end_time : Option Int) (st : ExportState) (i : Nat) :
    export_order_step mm symbols end_time st i =
      match fmatch mm symbols i with
      | none => { st with reads := st.reads + 1 }
      | some j =>
        if time_filtered end_time (leI (record_data mm SIZE_ORDER i) 44 4) then
          { st with reads := st.reads + 1 }
        else
          { reads := st.reads + 1
            counts := st.counts.set j (st.counts.getD j 0 + 1)
            outs := st.outs.set j
              (st.outs.getD j [] ++ [order_line_of mm symbols j i]) } := rfl

theorem fmatch_lt (mm : List Nat) (symbols : List (List Nat)) (i j : Nat)
    (h : fmatch mm symbols i = some j) : j < symbols.length :=
  (List.findIdx?_eq_some_iff_findIdx_eq.mp h).1

end BatchExport

theorem export_order_step_state_of (mm : List Nat) (symbols : List (List Nat))
    (ps : List Nat) (i : Nat) :
    BatchExport.export_order_step mm symbols none
      (BatchExport.state_of mm symbols ps) i =
    BatchExport.state_of mm symbols (ps ++ [i]) := by
  rw [BatchExport.export_order_step_eq]
  cases hfm : BatchExport.fmatch mm symbols i with
  | none =>
    unfold BatchExport.state_of
    simp only [BatchExport.ExportState.mk.injEq]
    refine ⟨by simp, ?_, ?_⟩
    · apply List.map_congr_left
      intro j _
      rw [List.filter_append]
      simp [List.filter_cons, hfm]
    · apply List.map_congr_left
      intro j _
      rw [List.filter_append]
      simp [List.filter_cons, hfm]
  | some j =>
    have hj : j < symbols.length := BatchExport.fmatch_lt mm symbols i j hfm
    have htf : BatchExport.time_filtered none
        (leI (BatchExport.record_data mm SIZE_ORDER i) 44 4) = false := rfl
    simp only [htf, Bool.false_eq_true, if_false]
    unfold BatchExport.state_of
    simp only [BatchExport.ExportState.mk.injEq]
    refine ⟨by simp, ?_, ?_⟩
    · rw [getD_map_range _ _ _ _ hj, map_range_set _ _ _ _ hj]
      apply List.map_congr_left
      intro k _
      by_cases hkj : k = j
      · subst hkj
        rw [if_pos rfl, List.filter_append]
        simp [List.filter_cons, hfm]
      · rw [if_neg hkj, List.filter_append]
        simp [List.filter_cons, hfm, Ne.symm hkj]
    · rw [getD_map_range _ _ _ _ hj, map_range_set _ _ _ _ hj]
      apply List.map_congr_left
      intro k _
      by_cases hkj : k = j
      · subst hkj
        rw [if_pos rfl, List.filter_append]
        simp [List.filter_cons, hfm]
      · rw [if_neg hkj, List.filter_append]
        simp [List.filter_cons, hfm, Ne.symm hkj]

theorem export_orders_fold_state_of (mm : List Nat)
    (symbols : List (List Nat)) :
    ∀ (is ps : List Nat),
      is.foldl (BatchExport.export_order_step mm symbols none)
        (BatchExport.state_of mm symbols ps) =
      BatchExport.state_of mm symbols (ps ++ is) := by
  intro is
  induction is with
  | nil => intro ps; simp
  | cons i is ih =>
    intro ps
    rw [List.foldl_cons, export_order_step_state_of, ih]
    congr 1
    simp

theorem state_of_nil (mm : List Nat) (symbols : List (List Nat)) :
    BatchExport.state_of mm symbols [] =
      ⟨0, List.replicate symbols.length 0, List.replicate symbols.length []⟩ := by
  unfold BatchExport.state_of
  simp only [BatchExport.ExportState.mk.injEq]
  refine ⟨by simp, ?_, ?_⟩
  · rw [List.eq_replicate_iff]
    constructor
    · simp
    · intro b hb
      rcases List.mem_map.mp hb with ⟨j, _, rfl⟩
      simp
  · rw [List.eq_replicate_iff]
    constructor
    · simp
    · intro b hb
      rcases List.mem_map.mp hb with ⟨j, _, rfl⟩
      simp

theorem counts_sum_split (g : Nat → Option Nat) (n : Nat)
    (hg : ∀ i j, g i = some j → j < n) :
    ∀ l : List Nat,
      ((List.range n).map
        (fun j => (l.filter (fun i => g i == some j)).length)).sum +
      (l.filter (fun i => (g i).isNone)).length = l.length := by
  intro l
  induction l with
  | nil => simp
  | cons i l ih =>
    cases hgi : g i with
    | none =>
      have hmap : (List.range n).map
          (fun j => ((i :: l).filter (fun i' => g i' == some j)).length) =
          (List.range n).map
          (fun j => (l.filter (fun i' => g i' == some j)).length) := by
        apply List.map_congr_left
        intro j _
        simp [List.filter_cons, hgi]
      have hfil : (i :: l).filter (fun i' => (g i').isNone) =
          i :: l.filter (fun i' => (g i').isNone) := by
        simp [List.filter_cons, hgi]
      rw [hmap, hfil, List.length_cons, List.length_cons]
      omega
    | some j0 =>
      have hj0 : j0 < n := hg i j0 hgi
      have h1 : (List.range n).map
          (fun j => ((i :: l).filter (fun i' => g i' == some j)).length) =
          ((List.range n).map
            (fun j => (l.filter (fun i' => g i' == some j)).length)).set j0
          (((List.range n).map
            (fun j => (l.filter (fun i' => g i' == some j)).length)).getD j0 0
            + 1) := by
        rw [getD_map_range _ _ _ _ hj0, map_range_set _ _ _ _ hj0]
        apply List.map_congr_left
        intro k _
        by_cases hkj : k = j0
        · subst hkj
          rw [if_pos rfl]
          simp [List.filter_cons, hgi]
        · rw [if_neg hkj]
          simp [List.filter_cons, hgi, Ne.symm hkj]
      have hfil : (i :: l).filter (fun i' => (g i').isNone) =
          l.filter (fun i' => (g i').isNone) := by
        simp [List.filter_cons, hgi]
      rw [h1, sum_set_add_one _ j0 (by simpa using hj0), hfil,
        List.length_cons]
      omega

/-- **C6.**  With no end-time bound, `export_orders_batch` performs one
sequential pass reading each of the `record_count` records exactly once
(the read counter equals `record_count`, independent of the number of
targets); each record whose symbol contains a target goes to exactly the
stream of its first matching target; and the per-symbol counts sum with the
unmatched-record count to `record_count`. -/
theorem C6_single_pass_export (mm : List Nat) (symbols : List (List Nat))
    (h : Header) (hh : BatchExport.read_header mm = some h) :
    BatchExport.export_orders_batch mm symbols none =
      some (BatchExport.counts_spec mm symbols h.record_count,
            BatchExport.outs_spec mm symbols h.record_count,
            h.record_count) ∧
    (BatchExport.counts_spec mm symbols h.record_count).sum +
      BatchExport.unmatched_count mm symbols h.record_count =
      h.record_count := by
  constructor
  · simp only [BatchExport.export_orders_batch, hh]
    rw [← state_of_nil mm symbols, export_orders_fold_state_of,
      List.nil_append]
    unfold BatchExport.state_of
    simp only [Option.some.injEq, Prod.mk.injEq]
    refine ⟨rfl, rfl, by simp⟩
  · have := counts_sum_split (BatchExport.fmatch mm symbols) symbols.length
      (fun i j hij => BatchExport.fmatch_lt mm symbols i j hij)
      (List.range h.record_count)
    simpa [BatchExport.counts_spec, BatchExport.matched_positions,
      BatchExport.unmatched_count] using this

/-- **C6 witness**: the theorem applied to the concrete 4-record file `F5`
with the single target symbol `600000`. -/
theorem C6_single_pass_export_witness :
    BatchExport.export_orders_batch F5 [sym600000] none =
      some (BatchExport.counts_spec F5 [sym600000] 4,
            BatchExport.outs_spec F5 [sym600000] 4, 4) ∧
    (BatchExport.counts_spec F5 [sym600000] 4).sum +
      BatchExport.unmatched_count F5 [sym600000] 4 = 4 :=
  C6_single_pass_export F5 [sym600000] ⟨MAGIC_ORDER, 1, 144, 4, 0⟩ (by decide)
